import Mathlib

/-!
Shallow embedding of `src/1_data_ingest.py`: a linear PySpark batch script that
reads a CSV from cloud storage, exports it to a fixed local path, conditionally
registers it as a Hive table, and prints diagnostics.  The script is embedded as
a pure function `runIngest` from an explicit environment (process environment,
storage files, catalog, local filesystem) and a fault-injection record to a run
result: the ordered trace of engine effects, the ordered standard-output
diagnostics, the final environment state, and an optional fatal error.
-/

set_option autoImplicit false

namespace Ingest

/-- A cell of the loaded dataset; `none` models a SQL null (produced by the
`nullValue` token of the CSV reader). -/
abbrev Cell := Option String

/-- The tabular dataset loaded by `spark.read.csv`.  The script does not pass
`inferSchema`, so every column has string type and the schema is exactly the
header-derived list of column names. -/
structure DataFrame where
  schema : List String
  rows : List (List Cell)
  deriving Repr, DecidableEq

/-- Split a character list at every occurrence of `sep` (the CSV field and
record separators); always returns at least one (possibly empty) piece. -/
def splitOnChar (sep : Char) : List Char → List (List Char)
  | [] => [[]]
  | c :: cs =>
    if c = sep then
      [] :: splitOnChar sep cs
    else
      match splitOnChar sep cs with
      | [] => [[c]]
      | f :: r => (c :: f) :: r

/-- Map one raw CSV field through the reader's `nullValue` option: the literal
token becomes null, anything else is kept verbatim. -/
def parseField (nullValue : String) (s : String) : Cell :=
  if s = nullValue then none else some s

/-- Parse one data record: split at the separator, apply the null-token map. -/
def parseRecord (sep : Char) (nullValue : String) (line : List Char) : List Cell :=
  ((splitOnChar sep line).map String.mk).map (parseField nullValue)

/-- Embedding of `spark.read.csv(path, header=..., sep=..., nullValue=...)`
applied to the raw file content: with `header = true` the first record names
the columns and the remaining records become rows. -/
def sparkReadCsv (header : Bool) (sep : Char) (nullValue : String)
    (content : String) : DataFrame :=
  match header, splitOnChar '\n' content.data with
  | true, [] => ⟨[], []⟩
  | true, h :: tl => ⟨(splitOnChar sep h).map String.mk, tl.map (parseRecord sep nullValue)⟩
  | false, ls => ⟨[], ls.map (parseRecord sep nullValue)⟩

/-- The dataframe bound to `hollow_processed` at lines 33-39 of the script:
the CSV read with `header=True, sep=',', nullValue='NA'`. -/
def hollow_processed (content : String) : DataFrame :=
  sparkReadCsv true ',' "NA" content

/-- The raw (pre-null-mapping) field at data row `i`, column `j` of the source
file, under the same record/field splitting the reader performs. -/
def rawFieldAt (content : String) (i j : Nat) : Option String :=
  match splitOnChar '\n' content.data with
  | [] => none
  | _ :: tl =>
    match tl.get? i with
    | none => none
    | some line => ((splitOnChar ',' line).map String.mk).get? j

/-- The cell at row `i`, column `j` of a loaded dataframe. -/
def cellAt (df : DataFrame) (i j : Nat) : Option Cell :=
  match df.rows.get? i with
  | none => none
  | some r => r.get? j

/-- Fixed relative path of the source CSV under the storage root (line 34). -/
def csvPathSuffix : String := "/datalake/data/content_metadata/hollow_processed.csv"

/-- Fixed local export directory (line 51). -/
def localExportPath : String := "file:/home/cdsw/raw/hollow-processed/"

/-- A catalog-managed table entry: persistent format plus the persisted data. -/
structure TableEntry where
  format : String
  data : DataFrame
  deriving Repr, DecidableEq

/-- The content of the local export directory after a `write.csv`: number of
partition files (after `coalesce`), header flag, and the exported data. -/
structure LocalExport where
  numPartitions : Nat
  header : Bool
  data : DataFrame
  deriving Repr, DecidableEq

/-- The explicit state the script interacts with: process environment
variables, cloud-storage files (path to raw content), the metastore catalog
(database, table name, entry), and the local filesystem (export directory to
its content). -/
structure SparkEnv where
  env : List (String × String)
  files : List (String × String)
  catalog : List (String × String × TableEntry)
  localFS : List (String × LocalExport)
  deriving Repr, DecidableEq

/-- Association-list lookup (first match wins). -/
def getAssoc {α : Type} : List (String × α) → String → Option α
  | [], _ => none
  | (k, v) :: tl, key => if k = key then some v else getAssoc tl key

/-- Association-list overwrite: replace every binding of `key`, or append one;
models a directory being fully overwritten by `mode="overwrite"`. -/
def setAssoc {α : Type} : List (String × α) → String → α → List (String × α)
  | [], key, v => [(key, v)]
  | (k, w) :: tl, key, v =>
    if k = key then (key, v) :: setAssoc tl key v else (k, w) :: setAssoc tl key v

/-- Table names registered in database `db` (the result column `tableName` of
`show tables in <db>`). -/
def tableNamesIn (cat : List (String × String × TableEntry)) (db : String) : List String :=
  match cat with
  | [] => []
  | (db', t, _) :: tl =>
    if db' = db then t :: tableNamesIn tl db else tableNamesIn tl db

/-- Remove every registration of table `t` in database `db`. -/
def removeTable (cat : List (String × String × TableEntry)) (db t : String) :
    List (String × String × TableEntry) :=
  match cat with
  | [] => []
  | (db', t', e) :: tl =>
    if db' = db ∧ t' = t then removeTable tl db t
    else (db', t', e) :: removeTable tl db t

/-- Overwrite-mode `saveAsTable`: replace any registration of the name and
record the new entry. -/
def saveTableEntry (cat : List (String × String × TableEntry)) (db t : String)
    (e : TableEntry) : List (String × String × TableEntry) :=
  (db, t, e) :: removeTable cat db t

/-- Look up the entry registered for table `t` in database `db`. -/
def getTable (cat : List (String × String × TableEntry)) (db t : String) :
    Option TableEntry :=
  match cat with
  | [] => none
  | (db', t', e) :: tl =>
    if db' = db ∧ t' = t then some e else getTable tl db t

/-- Databases displayed by `show databases` (one per registration, in catalog
order; the rendering detail is irrelevant to the script). -/
def databasesOf (cat : List (String × String × TableEntry)) : List String :=
  cat.map (fun x => x.1)

/-- Split a qualified table name `db.table` as the engine does. -/
def parseTableName (s : String) : String × String :=
  match (splitOnChar '.' s.data).map String.mk with
  | [db, t] => (db, t)
  | _ => ("default", s)

/-- Engine effects, in the order the script issues them. -/
inductive Effect where
  | getEnvVar (key : String) (result : Option String)
  | acquireSession (hadoopFS : Option String)
  | environLookup (key : String) (result : Option String)
  | readCsvFile (path : String) (header : Bool) (sep : Char) (nullValue : String)
  | printSchemaEff (schema : List String)
  | writeLocalCsv (path : String) (mode : String) (header : Bool) (numPartitions : Nat)
  | showDatabases
  | showTablesInDefault
  | queryTableNames (db : String)
  | printMsg (msg : String)
  | saveTable (name : String) (format : String) (mode : String)
  | describeFormatted (name : String)
  deriving Repr, DecidableEq

/-- What a run writes to standard output.  `formattedTableDescription` is the
observation the spec expects from line 77; the script never emits it because
`toPandas()` is evaluated as a bare expression statement and its value is
discarded. -/
inductive Diagnostic where
  | schemaDescription (schema : List String)
  | databaseListing (dbs : List String)
  | tableListing (db : String) (tables : List String)
  | message (msg : String)
  | formattedTableDescription (table : String)
  deriving Repr, DecidableEq

/-- Fatal errors a run can terminate with. -/
inductive RunError where
  | sessionError
  | keyError (key : String)
  | readError (path : String)
  | localWriteError
  | catalogQueryError
  | saveTableError
  | describeError
  deriving Repr, DecidableEq

/-- Fault injection for the engine-delegated steps (the script has no
error handling of its own, so each fault aborts the run at that step). -/
structure Faults where
  sessionFail : Bool
  localWriteFail : Bool
  catalogQueryFail : Bool
  saveFail : Bool
  deriving Repr, DecidableEq

/-- The fault-free engine. -/
def noFaults : Faults := ⟨false, false, false, false⟩

/-- Result of one invocation of the script: the ordered effect trace, the
ordered standard-output diagnostics, the final external state, and the fatal
error if the run aborted. -/
structure RunResult where
  trace : List Effect
  stdout : List Diagnostic
  state : SparkEnv
  error : Option RunError
  deriving Repr, DecidableEq

/-- Line 77: `spark.sql("describe formatted default.hollow_processed").toPandas()`.
The query runs (and fails if the table is not registered) but nothing is
printed: the expression-statement value is discarded. -/
def describeStep (w : SparkEnv) (tr : List Effect) (out : List Diagnostic) : RunResult :=
  let dbt := parseTableName "default.hollow_processed"
  ⟨tr ++ [Effect.describeFormatted "default.hollow_processed"], out, w,
    if dbt.2 ∈ tableNamesIn w.catalog dbt.1 then none else some RunError.describeError⟩

/-- The whole script, one top-level statement after another (line numbers refer
to `src/1_data_ingest.py`). -/
def runIngest (w : SparkEnv) (f : Faults) : RunResult :=
  -- line 23: SparkSession.builder...config("spark.yarn.access.hadoopFileSystems",
  -- os.getenv('STORAGE')).getOrCreate() — the getenv is non-raising.
  let storageConf := getAssoc w.env "STORAGE"
  let tr0 := [Effect.getEnvVar "STORAGE" storageConf, Effect.acquireSession storageConf]
  if f.sessionFail then
    ⟨tr0, [], w, some RunError.sessionError⟩
  else
    -- line 31: storage = os.environ['STORAGE'] — raises KeyError when unset.
    match getAssoc w.env "STORAGE" with
    | none =>
      ⟨tr0 ++ [Effect.environLookup "STORAGE" none], [], w,
        some (RunError.keyError "STORAGE")⟩
    | some storage =>
      let tr1 := tr0 ++ [Effect.environLookup "STORAGE" (some storage)]
      -- lines 33-39: spark.read.csv("{}/datalake/...".format(storage),
      -- header=True, sep=',', nullValue='NA')
      let path := storage ++ csvPathSuffix
      let tr2 := tr1 ++ [Effect.readCsvFile path true ',' "NA"]
      match getAssoc w.files path with
      | none => ⟨tr2, [], w, some (RunError.readError path)⟩
      | some content =>
        let df := hollow_processed content
        -- line 45: hollow_processed.printSchema()
        let tr3 := tr2 ++ [Effect.printSchemaEff df.schema]
        let out3 := [Diagnostic.schemaDescription df.schema]
        -- lines 50-54: hollow_processed.coalesce(1).write.csv(
        --   "file:/home/cdsw/raw/hollow-processed/", mode="overwrite", header=True)
        let tr4 := tr3 ++ [Effect.writeLocalCsv localExportPath "overwrite" true 1]
        if f.localWriteFail then
          ⟨tr4, out3, w, some RunError.localWriteError⟩
        else
          let w1 : SparkEnv :=
            { w with localFS := setAssoc w.localFS localExportPath ⟨1, true, df⟩ }
          -- line 56: spark.sql("show databases").show()
          -- line 58: spark.sql("show tables in default").show()
          let tr5 := tr4 ++ [Effect.showDatabases, Effect.showTablesInDefault]
          let out5 := out3 ++
            [Diagnostic.databaseListing (databasesOf w1.catalog),
             Diagnostic.tableListing "default" (tableNamesIn w1.catalog "default")]
          -- line 64: list(spark.sql("show tables in default").toPandas()['tableName'])
          let tr6 := tr5 ++ [Effect.queryTableNames "default"]
          if f.catalogQueryFail then
            ⟨tr6, out5, w1, some RunError.catalogQueryError⟩
          else if "hollow_processed" ∈ tableNamesIn w1.catalog "default" then
            describeStep w1 tr6 out5
          else
            -- line 65: print("creating the hollow_processed database")
            let tr7 := tr6 ++ [Effect.printMsg "creating the hollow_processed database"]
            let out7 := out5 ++ [Diagnostic.message "creating the hollow_processed database"]
            -- lines 66-71: hollow_processed.write.format("parquet")
            --   .mode("overwrite").saveAsTable('default.hollow_processed')
            let tr8 := tr7 ++ [Effect.saveTable "default.hollow_processed" "parquet" "overwrite"]
            if f.saveFail then
              ⟨tr8, out7, w1, some RunError.saveTableError⟩
            else
              let dbt := parseTableName "default.hollow_processed"
              let w2 : SparkEnv :=
                { w1 with catalog := saveTableEntry w1.catalog dbt.1 dbt.2 ⟨"parquet", df⟩ }
              describeStep w2 tr8 out7

/-- The external state after `n` consecutive fault-free runs. -/
def runIterState : Nat → SparkEnv → SparkEnv
  | 0, w => w
  | n + 1, w => runIterState n (runIngest w noFaults).state

/-- A raw source file: header `id,name` and two data rows, one with an `NA`. -/
def sampleCsv : String := "id,name\n1,NA\n2,alice"

/-- A concrete initial state with `STORAGE` set, the source file present, and
no table registered in the default namespace. -/
def wAbsent : SparkEnv :=
  { env := [("STORAGE", "s3a://bucket")]
    files := [("s3a://bucket/datalake/data/content_metadata/hollow_processed.csv", sampleCsv)]
    catalog := []
    localFS := [] }

/-- A pre-existing registration of `default.hollow_processed` whose schema and
format deliberately mismatch the source CSV. -/
def staleEntry : TableEntry := ⟨"orc", ⟨["other_col"], [[some "x"]]⟩⟩

/-- A concrete initial state in which `default.hollow_processed` already exists
(with a mismatched schema) and a stale local export is present. -/
def wPresent : SparkEnv :=
  { env := [("STORAGE", "s3a://bucket")]
    files := [("s3a://bucket/datalake/data/content_metadata/hollow_processed.csv", sampleCsv)]
    catalog := [("default", "hollow_processed", staleEntry)]
    localFS := [(localExportPath, ⟨1, true, ⟨["stale"], []⟩⟩)] }

/-- A concrete initial state with the `STORAGE` environment variable unset. -/
def wNoStorage : SparkEnv :=
  { env := [("HOME", "/home/cdsw")]
    files := []
    catalog := []
    localFS := [] }

/-! ### Helper lemmas -/

/-- Overwriting a binding makes it the value subsequently looked up. -/
theorem getAssoc_setAssoc {α : Type} (l : List (String × α)) (k : String) (v : α) :
    getAssoc (setAssoc l k v) k = some v := by
  induction l with
  | nil => simp [setAssoc, getAssoc]
  | cons hd tl ih =>
    obtain ⟨k', v'⟩ := hd
    by_cases h : k' = k <;> simp [setAssoc, getAssoc, h, ih]

/-- After removing every registration of a table name, that name no longer
occurs among the database's table names. -/
theorem count_tableNamesIn_removeTable (cat : List (String × String × TableEntry))
    (db t : String) :
    (tableNamesIn (removeTable cat db t) db).count t = 0 := by
  induction cat with
  | nil => simp [removeTable, tableNamesIn]
  | cons hd tl ih =>
    obtain ⟨db', t', e⟩ := hd
    by_cases hdb : db' = db <;> by_cases ht : t' = t <;>
      simp [removeTable, tableNamesIn, hdb, ht, ih, List.count_cons, beq_iff_eq]

/-- The fixed qualified table name splits into database and table. -/
theorem parseTableName_target :
    parseTableName "default.hollow_processed" = ("default", "hollow_processed") := by
  decide

/-! ### Claim theorems -/

/-- C3: whenever `STORAGE` is unset (and the session step itself does not
fault), the run aborts with the fatal lookup error (`KeyError` of line 31),
the external state is untouched, and no read of the source CSV and no write
to the local filesystem or to the catalog is ever attempted. -/
theorem missing_storage_fails_before_io (w : SparkEnv) (f : Faults)
    (h : getAssoc w.env "STORAGE" = none) (hs : f.sessionFail = false) :
    (runIngest w f).error = some (RunError.keyError "STORAGE") ∧
    (runIngest w f).state = w ∧
    (∀ p hd sep nv, Effect.readCsvFile p hd sep nv ∉ (runIngest w f).trace) ∧
    (∀ p m hd n, Effect.writeLocalCsv p m hd n ∉ (runIngest w f).trace) ∧
    (∀ n fo m, Effect.saveTable n fo m ∉ (runIngest w f).trace) := by
  simp [runIngest, h, hs]

/-- C3 witness at the concrete no-`STORAGE` state. -/
theorem missing_storage_fails_before_io_witness :
    (runIngest wNoStorage noFaults).error = some (RunError.keyError "STORAGE") :=
  (missing_storage_fails_before_io wNoStorage noFaults rfl rfl).1

/-- C4: with `STORAGE` unset, the session is still acquired first, configured
with an absent storage value (line 23 uses the non-raising `os.getenv`), and
the fatal lookup error arises only at the second, bracketed access of line 31,
after session creation: the whole trace is getenv, session acquisition, then
the raising lookup. -/
theorem session_acquired_before_failfast (w : SparkEnv) (f : Faults)
    (h : getAssoc w.env "STORAGE" = none) (hs : f.sessionFail = false) :
    (runIngest w f).trace =
      [Effect.getEnvVar "STORAGE" none, Effect.acquireSession none,
       Effect.environLookup "STORAGE" none] ∧
    (runIngest w f).error = some (RunError.keyError "STORAGE") := by
  simp [runIngest, h, hs]

/-- C4 witness at the concrete no-`STORAGE` state. -/
theorem session_acquired_before_failfast_witness :
    (runIngest wNoStorage noFaults).trace =
      [Effect.getEnvVar "STORAGE" none, Effect.acquireSession none,
       Effect.environLookup "STORAGE" none] :=
  (session_acquired_before_failfast wNoStorage noFaults rfl rfl).1

/-- C10: every fault-free run with `STORAGE` set and the source file readable
issues exactly this fixed effect sequence: env resolution, session
acquisition, the raising env lookup, the CSV load, the schema diagnostic, the
local export, the two catalog listings, the table-name query, conditionally
the creation message and the table write, and finally the formatted-metadata
query — so the local export always precedes the existence check, which
precedes any table creation. -/
theorem fixed_operation_sequence (w : SparkEnv) (st c : String)
    (h1 : getAssoc w.env "STORAGE" = some st)
    (h2 : getAssoc w.files (st ++ csvPathSuffix) = some c) :
    (runIngest w noFaults).trace =
      [Effect.getEnvVar "STORAGE" (some st), Effect.acquireSession (some st),
       Effect.environLookup "STORAGE" (some st),
       Effect.readCsvFile (st ++ "/datalake/data/content_metadata/hollow_processed.csv")
         true ',' "NA",
       Effect.printSchemaEff (hollow_processed c).schema,
       Effect.writeLocalCsv "file:/home/cdsw/raw/hollow-processed/" "overwrite" true 1,
       Effect.showDatabases, Effect.showTablesInDefault,
       Effect.queryTableNames "default"] ++
      (if "hollow_processed" ∈ tableNamesIn w.catalog "default" then []
       else [Effect.printMsg "creating the hollow_processed database",
             Effect.saveTable "default.hollow_processed" "parquet" "overwrite"]) ++
      [Effect.describeFormatted "default.hollow_processed"] := by
  have h2' : getAssoc w.files
      (st ++ "/datalake/data/content_metadata/hollow_processed.csv") = some c := by
    simpa [csvPathSuffix] using h2
  by_cases hmem : "hollow_processed" ∈ tableNamesIn w.catalog "default" <;>
    simp [runIngest, describeStep, noFaults, h1, h2', hmem, csvPathSuffix, localExportPath]

/-- C10 witness at the concrete table-absent state. -/
theorem fixed_operation_sequence_witness :
    (runIngest wAbsent noFaults).trace =
      [Effect.getEnvVar "STORAGE" (some "s3a://bucket"),
       Effect.acquireSession (some "s3a://bucket"),
       Effect.environLookup "STORAGE" (some "s3a://bucket"),
       Effect.readCsvFile
         ("s3a://bucket" ++ "/datalake/data/content_metadata/hollow_processed.csv")
         true ',' "NA",
       Effect.printSchemaEff (hollow_processed sampleCsv).schema,
       Effect.writeLocalCsv "file:/home/cdsw/raw/hollow-processed/" "overwrite" true 1,
       Effect.showDatabases, Effect.showTablesInDefault,
       Effect.queryTableNames "default"] ++
      (if "hollow_processed" ∈ tableNamesIn wAbsent.catalog "default" then []
       else [Effect.printMsg "creating the hollow_processed database",
             Effect.saveTable "default.hollow_processed" "parquet" "overwrite"]) ++
      [Effect.describeFormatted "default.hollow_processed"] :=
  fixed_operation_sequence wAbsent "s3a://bucket" sampleCsv rfl rfl

/-- C1: over two consecutive fault-free runs with an unchanged source file and
no pre-existing table, the first run creates `default.hollow_processed`
(a parquet-format, overwrite-mode write of the loaded dataset under the fully
qualified name), the second run performs no catalog write and leaves the
catalog unchanged, and exactly one registration of that name exists in the
default namespace after both runs. -/
theorem catalog_create_once (w : SparkEnv) (st c : String)
    (h1 : getAssoc w.env "STORAGE" = some st)
    (h2 : getAssoc w.files (st ++ csvPathSuffix) = some c)
    (h3 : "hollow_processed" ∉ tableNamesIn w.catalog "default") :
    (runIngest w noFaults).error = none ∧
    Effect.saveTable "default.hollow_processed" "parquet" "overwrite" ∈
      (runIngest w noFaults).trace ∧
    getTable (runIngest w noFaults).state.catalog "default" "hollow_processed" =
      some ⟨"parquet", hollow_processed c⟩ ∧
    (runIngest (runIngest w noFaults).state noFaults).error = none ∧
    (∀ n fo m, Effect.saveTable n fo m ∉
      (runIngest (runIngest w noFaults).state noFaults).trace) ∧
    (runIngest (runIngest w noFaults).state noFaults).state.catalog =
      (runIngest w noFaults).state.catalog ∧
    (tableNamesIn (runIngest (runIngest w noFaults).state noFaults).state.catalog
      "default").count "hollow_processed" = 1 := by
  simp [runIngest, describeStep, noFaults, h1, h2, h3, parseTableName_target,
    saveTableEntry, tableNamesIn, getTable, List.count_cons,
    count_tableNamesIn_removeTable, beq_iff_eq]

/-- C1 witness: after two concrete runs from the table-absent state, exactly
one registration of the name remains. -/
theorem catalog_create_once_witness :
    (tableNamesIn (runIngest (runIngest wAbsent noFaults).state noFaults).state.catalog
      "default").count "hollow_processed" = 1 :=
  (catalog_create_once wAbsent "s3a://bucket" sampleCsv rfl rfl (by decide)).2.2.2.2.2.2

/-- C5: when a table named `hollow_processed` is already registered in the
default namespace (whatever its entry), the fault-free run still succeeds and
performs the local export, but issues no catalog write at all and leaves the
catalog — registration, format and contents — exactly as it was. -/
theorem skip_on_exists (w : SparkEnv) (st c : String)
    (h1 : getAssoc w.env "STORAGE" = some st)
    (h2 : getAssoc w.files (st ++ csvPathSuffix) = some c)
    (hp : "hollow_processed" ∈ tableNamesIn w.catalog "default") :
    (runIngest w noFaults).error = none ∧
    Effect.writeLocalCsv "file:/home/cdsw/raw/hollow-processed/" "overwrite" true 1 ∈
      (runIngest w noFaults).trace ∧
    getAssoc (runIngest w noFaults).state.localFS localExportPath =
      some ⟨1, true, hollow_processed c⟩ ∧
    (∀ n fo m, Effect.saveTable n fo m ∉ (runIngest w noFaults).trace) ∧
    (runIngest w noFaults).state.catalog = w.catalog := by
  simp [runIngest, describeStep, noFaults, h1, h2, hp, parseTableName_target,
    getAssoc_setAssoc, localExportPath]

/-- C5 witness: at the concrete state whose registered table has a mismatched
schema, the run leaves that stale catalog entry untouched. -/
theorem skip_on_exists_witness :
    (runIngest wPresent noFaults).state.catalog = wPresent.catalog :=
  (skip_on_exists wPresent "s3a://bucket" sampleCsv rfl rfl (by decide)).2.2.2.2

/-- C8: both writes of a creating run consume the identical untransformed
dataset: the local export directory and the catalog entry end up holding the
very dataframe loaded from the source CSV, so column set and types match the
inferred schema exactly, with nothing added, dropped or retyped in between. -/
theorem schema_stable_across_writes (w : SparkEnv) (st c : String)
    (h1 : getAssoc w.env "STORAGE" = some st)
    (h2 : getAssoc w.files (st ++ csvPathSuffix) = some c)
    (h3 : "hollow_processed" ∉ tableNamesIn w.catalog "default") :
    getAssoc (runIngest w noFaults).state.localFS localExportPath =
      some ⟨1, true, hollow_processed c⟩ ∧
    getTable (runIngest w noFaults).state.catalog "default" "hollow_processed" =
      some ⟨"parquet", hollow_processed c⟩ ∧
    Effect.printSchemaEff (hollow_processed c).schema ∈ (runIngest w noFaults).trace := by
  simp [runIngest, describeStep, noFaults, h1, h2, h3, parseTableName_target,
    getAssoc_setAssoc, saveTableEntry, getTable]

/-- C8 witness: at the concrete table-absent state the catalog entry holds the
loaded dataframe itself. -/
theorem schema_stable_across_writes_witness :
    getTable (runIngest wAbsent noFaults).state.catalog "default" "hollow_processed" =
      some ⟨"parquet", hollow_processed sampleCsv⟩ :=
  (schema_stable_across_writes wAbsent "s3a://bucket" sampleCsv rfl rfl (by decide)).2.1

/-- C9: there is no partial-failure recovery.  When the catalog write faults
(after the local export succeeded), the run aborts with that error, reaches no
later step, and rolls nothing back: the fresh local export stays in place and
the catalog is as before.  When the local export itself faults, the run aborts
there with the state untouched and never reaches the catalog query. -/
theorem no_partial_failure_recovery (w : SparkEnv) (st c : String)
    (h1 : getAssoc w.env "STORAGE" = some st)
    (h2 : getAssoc w.files (st ++ csvPathSuffix) = some c)
    (h3 : "hollow_processed" ∉ tableNamesIn w.catalog "default") :
    (runIngest w ⟨false, false, false, true⟩).error = some RunError.saveTableError ∧
    Effect.writeLocalCsv "file:/home/cdsw/raw/hollow-processed/" "overwrite" true 1 ∈
      (runIngest w ⟨false, false, false, true⟩).trace ∧
    getAssoc (runIngest w ⟨false, false, false, true⟩).state.localFS localExportPath =
      some ⟨1, true, hollow_processed c⟩ ∧
    (runIngest w ⟨false, false, false, true⟩).state.catalog = w.catalog ∧
    Effect.describeFormatted "default.hollow_processed" ∉
      (runIngest w ⟨false, false, false, true⟩).trace ∧
    (runIngest w ⟨false, true, false, false⟩).error = some RunError.localWriteError ∧
    (runIngest w ⟨false, true, false, false⟩).state = w ∧
    Effect.queryTableNames "default" ∉ (runIngest w ⟨false, true, false, false⟩).trace := by
  simp [runIngest, h1, h2, h3, getAssoc_setAssoc, localExportPath]

/-- C9 witness: the catalog-step fault at the concrete table-absent state
leaves the completed local export in place. -/
theorem no_partial_failure_recovery_witness :
    getAssoc (runIngest wAbsent ⟨false, false, false, true⟩).state.localFS
      localExportPath = some ⟨1, true, hollow_processed sampleCsv⟩ :=
  (no_partial_failure_recovery wAbsent "s3a://bucket" sampleCsv rfl rfl
    (by decide)).2.2.1

/-- C2 counterexample: on a concrete successful run the formatted-metadata
query of line 77 executes, but its description is not among the diagnostics
written to standard output — `toPandas()` is a bare expression statement whose
value the script discards — so not all three claimed diagnostics are printed. -/
theorem formatted_description_not_printed :
    (runIngest wAbsent noFaults).error = none ∧
    Effect.describeFormatted "default.hollow_processed" ∈
      (runIngest wAbsent noFaults).trace ∧
    Diagnostic.formattedTableDescription "default.hollow_processed" ∉
      (runIngest wAbsent noFaults).stdout := by
  decide

/-- C2 amended: on every successful fault-free run, the inferred schema
description and the namespace and table listings are printed to standard
output, and the formatted-metadata query of `default.hollow_processed` is
executed — but its result is discarded rather than printed. -/
theorem diagnostics_printed_except_describe (w : SparkEnv) (st c : String)
    (h1 : getAssoc w.env "STORAGE" = some st)
    (h2 : getAssoc w.files (st ++ csvPathSuffix) = some c) :
    (runIngest w noFaults).error = none ∧
    Diagnostic.schemaDescription (hollow_processed c).schema ∈
      (runIngest w noFaults).stdout ∧
    Diagnostic.databaseListing (databasesOf w.catalog) ∈ (runIngest w noFaults).stdout ∧
    Diagnostic.tableListing "default" (tableNamesIn w.catalog "default") ∈
      (runIngest w noFaults).stdout ∧
    Effect.describeFormatted "default.hollow_processed" ∈ (runIngest w noFaults).trace ∧
    (∀ t, Diagnostic.formattedTableDescription t ∉ (runIngest w noFaults).stdout) := by
  by_cases hmem : "hollow_processed" ∈ tableNamesIn w.catalog "default" <;>
    simp [runIngest, describeStep, noFaults, h1, h2, hmem, parseTableName_target,
      saveTableEntry, tableNamesIn]

/-- C2 amended witness at the concrete table-present state. -/
theorem diagnostics_printed_except_describe_witness :
    Diagnostic.schemaDescription (hollow_processed sampleCsv).schema ∈
      (runIngest wPresent noFaults).stdout :=
  (diagnostics_printed_except_describe wPresent "s3a://bucket" sampleCsv rfl rfl).2.1

/-- C6: the run loads exactly the file at
`<STORAGE>/datalake/data/content_metadata/hollow_processed.csv` with a header
row, comma separator and null token `NA`, and every raw source field equal to
the literal `NA` yields a null cell at the same position of the loaded
dataset. -/
theorem csv_read_na_maps_to_null (w : SparkEnv) (st c : String) (i j : Nat)
    (h1 : getAssoc w.env "STORAGE" = some st)
    (h2 : getAssoc w.files (st ++ csvPathSuffix) = some c)
    (hNA : rawFieldAt c i j = some "NA") :
    Effect.readCsvFile (st ++ "/datalake/data/content_metadata/hollow_processed.csv")
      true ',' "NA" ∈ (runIngest w noFaults).trace ∧
    cellAt (hollow_processed c) i j = some none := by
  constructor
  · have h2' : getAssoc w.files
        (st ++ "/datalake/data/content_metadata/hollow_processed.csv") = some c := by
      simpa [csvPathSuffix] using h2
    by_cases hmem : "hollow_processed" ∈ tableNamesIn w.catalog "default" <;>
      simp [runIngest, describeStep, noFaults, h1, h2', hmem, csvPathSuffix]
  · simp only [rawFieldAt, List.get?_eq_getElem?] at hNA
    simp only [cellAt, hollow_processed, sparkReadCsv, List.get?_eq_getElem?]
    cases hsp : splitOnChar '\n' c.data with
    | nil => simp [hsp] at hNA
    | cons hd tl =>
      simp only [hsp] at hNA ⊢
      cases hline : tl[i]? with
      | none => simp [hline] at hNA
      | some line =>
        simp only [hline] at hNA
        rw [List.getElem?_map, hline]
        simp only [Option.map_some']
        unfold parseRecord
        rw [List.getElem?_map, hNA]
        simp [parseField]

/-- C6 witness: in the concrete source file, data row 0 field 1 is the literal
`NA` and the loaded dataset holds a null there. -/
theorem csv_read_na_maps_to_null_witness :
    cellAt (hollow_processed sampleCsv) 0 1 = some none :=
  (csv_read_na_maps_to_null wAbsent "s3a://bucket" sampleCsv 0 1 rfl rfl (by decide)).2

/-- No run, faulted or not, modifies the process environment or the storage
files. -/
theorem runIngest_preserves_config (w : SparkEnv) (f : Faults) :
    (runIngest w f).state.env = w.env ∧ (runIngest w f).state.files = w.files := by
  cases hsf : f.sessionFail with
  | true => simp [runIngest, hsf]
  | false =>
    cases hS : getAssoc w.env "STORAGE" with
    | none => simp [runIngest, hsf, hS]
    | some st =>
      cases hF : getAssoc w.files (st ++ csvPathSuffix) with
      | none => simp [runIngest, hsf, hS, hF]
      | some c =>
        cases hlw : f.localWriteFail with
        | true => simp [runIngest, hsf, hS, hF, hlw]
        | false =>
          cases hcq : f.catalogQueryFail with
          | true => simp [runIngest, hsf, hS, hF, hlw, hcq]
          | false =>
            by_cases hmem : "hollow_processed" ∈ tableNamesIn w.catalog "default"
            · simp [runIngest, describeStep, hsf, hS, hF, hlw, hcq, hmem]
            · cases hsv : f.saveFail with
              | true => simp [runIngest, describeStep, hsf, hS, hF, hlw, hcq, hmem, hsv]
              | false => simp [runIngest, describeStep, hsf, hS, hF, hlw, hcq, hmem, hsv]

/-- A successful read-write run leaves the current dataset, and nothing else,
in the local export directory. -/
theorem runIngest_local_export (w : SparkEnv) (st c : String)
    (h1 : getAssoc w.env "STORAGE" = some st)
    (h2 : getAssoc w.files (st ++ csvPathSuffix) = some c) :
    getAssoc (runIngest w noFaults).state.localFS localExportPath =
      some ⟨1, true, hollow_processed c⟩ := by
  by_cases hmem : "hollow_processed" ∈ tableNamesIn w.catalog "default" <;>
    simp [runIngest, describeStep, noFaults, h1, h2, hmem, getAssoc_setAssoc]

/-- After any positive number of fault-free runs over an unchanged source
file, the local export directory holds exactly the latest export. -/
theorem runIterState_local_export (n : Nat) :
    ∀ (w : SparkEnv) (st c : String),
      getAssoc w.env "STORAGE" = some st →
      getAssoc w.files (st ++ csvPathSuffix) = some c →
      0 < n →
      getAssoc (runIterState n w).localFS localExportPath =
        some ⟨1, true, hollow_processed c⟩ := by
  induction n with
  | zero => intro w st c _ _ hn; exact absurd hn (by omega)
  | succ m ih =>
    intro w st c h1 h2 _
    cases Nat.eq_zero_or_pos m with
    | inl h0 =>
      subst h0
      simpa [runIterState] using runIngest_local_export w st c h1 h2
    | inr hpos =>
      have hpres := runIngest_preserves_config w noFaults
      have h1' : getAssoc (runIngest w noFaults).state.env "STORAGE" = some st := by
        rw [hpres.1]; exact h1
      have h2' : getAssoc (runIngest w noFaults).state.files (st ++ csvPathSuffix) =
          some c := by
        rw [hpres.2]; exact h2
      simpa [runIterState] using ih (runIngest w noFaults).state st c h1' h2' hpos

/-- C7: every fault-free run, whatever the catalog state and however many runs
preceded it, exports the dataset to the fixed local path as a
single-partition, headered CSV in overwrite mode, and after `n ≥ 1` such runs
the export directory holds only the most recent export. -/
theorem local_export_always_overwritten (w : SparkEnv) (st c : String) (n : Nat)
    (h1 : getAssoc w.env "STORAGE" = some st)
    (h2 : getAssoc w.files (st ++ csvPathSuffix) = some c)
    (hn : 0 < n) :
    Effect.writeLocalCsv "file:/home/cdsw/raw/hollow-processed/" "overwrite" true 1 ∈
      (runIngest w noFaults).trace ∧
    getAssoc (runIterState n w).localFS "file:/home/cdsw/raw/hollow-processed/" =
      some ⟨1, true, hollow_processed c⟩ := by
  constructor
  · by_cases hmem : "hollow_processed" ∈ tableNamesIn w.catalog "default" <;>
      simp [runIngest, describeStep, noFaults, h1, h2, hmem, localExportPath]
  · simpa [localExportPath] using runIterState_local_export n w st c h1 h2 hn

/-- C7 witness: after three concrete runs (the first of which registered the
table) the export directory holds exactly the current dataset. -/
theorem local_export_always_overwritten_witness :
    getAssoc (runIterState 3 wAbsent).localFS "file:/home/cdsw/raw/hollow-processed/" =
      some ⟨1, true, hollow_processed sampleCsv⟩ :=
  (local_export_always_overwritten wAbsent "s3a://bucket" sampleCsv 3 rfl rfl
    (by decide)).2

end Ingest
